import Mathlib

/-!
# Housing-Yard backend: shallow embedding and verification

This file embeds the query-building / search / property-lifecycle core of the
Housing-Yard backend (`src/backend`) in Lean 4 and settles the frozen claims
about it.  JavaScript numerics are modelled by `JsNum` (a rational or `NaN`);
query-string parameters are `Option String` (absent = `undefined`), and JS
truthiness, `parseInt`, `parseFloat` and `Number` are modelled explicitly.
-/

namespace HousingYard

/-- A JavaScript number as produced by `parseInt` / `parseFloat` / `Number`:
either `NaN` or a rational value (floats in the source only ever carry decimal
literals, so ℚ is exact for them). -/
inductive JsNum where
  | nan : JsNum
  | num : ℚ → JsNum
deriving Repr, DecidableEq

namespace JsNum

/-- JS `x || d` applied to a number: `NaN` and `0` are falsy. -/
def orDefault : JsNum → ℚ → ℚ
  | nan, d => d
  | num v, d => if v = 0 then d else v

/-- JS `Math.min`: `NaN` propagates. -/
def jsMin : JsNum → JsNum → JsNum
  | nan, _ => nan
  | _, nan => nan
  | num a, num b => num (min a b)

/-- JS `Math.max`: `NaN` propagates. -/
def jsMax : JsNum → JsNum → JsNum
  | nan, _ => nan
  | _, nan => nan
  | num a, num b => num (max a b)

/-- JS multiplication: `NaN` propagates. -/
def mul : JsNum → JsNum → JsNum
  | nan, _ => nan
  | _, nan => nan
  | num a, num b => num (a * b)

/-- JS division by a non-zero literal constant: `NaN` propagates. -/
def divC : JsNum → ℚ → JsNum
  | nan, _ => nan
  | num a, c => num (a / c)

end JsNum

/-- JS truthiness of a possibly-absent string parameter: `undefined` and the
empty string are falsy, every other string is truthy. -/
def jsTruthy : Option String → Bool
  | none => false
  | some s => s ≠ ""

/-- JS `a || b` on two possibly-absent string parameters (used for
`q || search` in `advancedSearch`). -/
def jsOrStr (a b : Option String) : Option String :=
  if jsTruthy a then a else b

/-- Dropping leading and trailing whitespace from a character list (the body
of JS `String.prototype.trim`, written structurally so that concrete
evaluation reduces in the kernel). -/
def trimChars (cs : List Char) : List Char :=
  ((cs.dropWhile Char.isWhitespace).reverse.dropWhile Char.isWhitespace).reverse

/-- JS `s.trim()`. -/
def jsTrim (s : String) : String :=
  String.mk (trimChars s.data)

/-- Numeric value of a list of decimal digit characters. -/
def digitsVal (ds : List Char) : ℕ :=
  ds.foldl (fun acc c => acc * 10 + (c.toNat - 48)) 0

/-- Split a leading run of decimal digits off a character list. -/
def spanDigits (cs : List Char) : List Char × List Char :=
  (cs.takeWhile Char.isDigit, cs.dropWhile Char.isDigit)

/-- JS `parseInt(s)` (base 10): skip whitespace, optional sign, then a leading
digit run; `NaN` when no digits are found; trailing garbage is ignored. -/
def jsParseInt (s : String) : JsNum :=
  let cs := trimChars s.data
  let core : List Char → Bool → JsNum := fun body neg =>
    match spanDigits body with
    | ([], _) => JsNum.nan
    | (ds, _) =>
      let n : ℤ := (digitsVal ds : ℤ)
      JsNum.num (if neg then (-n : ℚ) else (n : ℚ))
  match cs with
  | '-' :: rest => core rest true
  | '+' :: rest => core rest false
  | _ => core cs false

/-- JS `parseInt` applied to a possibly-absent parameter:
`parseInt(undefined)` is `NaN`. -/
def jsParseIntOpt : Option String → JsNum
  | none => JsNum.nan
  | some s => jsParseInt s

/-- JS `parseFloat(s)`: skip whitespace, optional sign, digits with an optional
fractional part; `NaN` when no digits at all; trailing garbage ignored. -/
def jsParseFloat (s : String) : JsNum :=
  let cs := trimChars s.data
  let core : List Char → Bool → JsNum := fun body neg =>
    let (intDs, rest) := spanDigits body
    let fracDs : List Char :=
      match rest with
      | '.' :: rest2 => (spanDigits rest2).1
      | _ => []
    if intDs.isEmpty ∧ fracDs.isEmpty then JsNum.nan
    else
      let ip : ℚ := (digitsVal intDs : ℚ)
      -- the fractional part is only added when present, so integral literals
      -- keep the plain cast-of-integer form
      let v : ℚ :=
        if fracDs.isEmpty then ip
        else ip + (digitsVal fracDs : ℚ) / ((10 : ℚ) ^ fracDs.length)
      JsNum.num (if neg then -v else v)
  match cs with
  | '-' :: rest => core rest true
  | '+' :: rest => core rest false
  | _ => core cs false

/-- JS `Number(s)`: the whole (trimmed) string must be a numeric literal;
the empty string converts to `0`; anything else to `NaN`.  (Exponent and hex
forms never occur in the inputs of this code base and are not modelled.) -/
def jsNumber (s : String) : JsNum :=
  let cs := trimChars s.data
  if cs.isEmpty then JsNum.num 0
  else
    let core : List Char → Bool → JsNum := fun body neg =>
      let (intDs, rest) := spanDigits body
      let (fracDs, rest2) :=
        match rest with
        | '.' :: r => spanDigits r
        | _ => ([], rest)
      if (intDs.isEmpty ∧ fracDs.isEmpty) ∨ ¬rest2.isEmpty then JsNum.nan
      else
        let ip : ℚ := (digitsVal intDs : ℚ)
        let v : ℚ :=
          if fracDs.isEmpty then ip
          else ip + (digitsVal fracDs : ℚ) / ((10 : ℚ) ^ fracDs.length)
        JsNum.num (if neg then -v else v)
    match cs with
    | '-' :: rest => core rest true
    | '+' :: rest => core rest false
    | _ => core cs false

/-- Case-insensitive substring test: the body of `$regex`/`$options: "i"`
matching for the plain-text patterns this code base passes to it, and of
JS `String.prototype.includes` after lowering. -/
def containsSub (hay needle : List Char) : Bool :=
  (List.range (hay.length + 1)).any fun i => needle.isPrefixOf (hay.drop i)

/-- Mongo `{ $regex: pattern, $options: "i" }` on a plain-text pattern:
case-insensitive substring containment. -/
def regexMatchI (input pattern : String) : Bool :=
  containsSub (input.data.map Char.toLower) (pattern.data.map Char.toLower)

/-- JS `s.includes(sub)` (case-sensitive). -/
def jsIncludes (s sub : String) : Bool :=
  containsSub s.data sub.data

/-! ## Query-string shape

The flat, stringly-typed query-parameter map, with exactly the keys the
backend reads.  `none` is an absent (`undefined`) parameter. -/

structure QueryString where
  q : Option String := none
  search : Option String := none
  city : Option String := none
  area : Option String := none
  state : Option String := none
  pincode : Option String := none
  locality : Option String := none
  minPrice : Option String := none
  maxPrice : Option String := none
  priceRange : Option String := none
  budget : Option String := none
  bedrooms : Option String := none
  bathrooms : Option String := none
  minArea : Option String := none
  maxArea : Option String := none
  propertyType : Option String := none
  furnishing : Option String := none
  parking : Option String := none
  age : Option String := none
  facing : Option String := none
  amenities : Option String := none
  lat : Option String := none
  lng : Option String := none
  radius : Option String := none
  metro : Option String := none
  landmark : Option String := none
  sortBy : Option String := none
  sortOrder : Option String := none
  page : Option String := none
  limit : Option String := none
deriving Repr, DecidableEq

/-! ## AdvancedApiFeatures: price filter (`priceFilter`, apiFeatures.js 107-139) -/

/-- A `{ $gte, $lte }` bound pair as built for `price`, `areaSqft` and
`ageInYears`. -/
structure RangeQuery where
  gte : Option JsNum := none
  lte : Option JsNum := none
deriving Repr, DecidableEq

/-- The fixed `priceRange` bucket table (apiFeatures.js 118-124).  Row `5` has
no upper bound.  Any id outside the table is `none` (`ranges[priceRange]`
is `undefined`). -/
def priceRangeTable : String → Option RangeQuery
  | "1" => some { gte := some (.num 0), lte := some (.num 2500000) }
  | "2" => some { gte := some (.num 2500000), lte := some (.num 5000000) }
  | "3" => some { gte := some (.num 5000000), lte := some (.num 10000000) }
  | "4" => some { gte := some (.num 10000000), lte := some (.num 20000000) }
  | "5" => some { gte := some (.num 20000000) }
  | _ => none

/-- `Object.assign(priceQuery, ranges[priceRange])`: keys present in the table
row override the accumulated bounds; `Object.assign(pq, undefined)` is a
no-op. -/
def assignRange (base : RangeQuery) : Option RangeQuery → RangeQuery
  | none => base
  | some r =>
    { gte := match r.gte with | some g => some g | none => base.gte,
      lte := match r.lte with | some l => some l | none => base.lte }

/-- `AdvancedApiFeatures.priceFilter`: the price predicate added to the query,
or `none` when no price filter is emitted.  The budget ceiling is
`(parseInt(budget) * 12 * 20) / 0.8`. -/
def priceFilter (qs : QueryString) : Option RangeQuery :=
  if jsTruthy qs.minPrice || jsTruthy qs.maxPrice ||
     jsTruthy qs.priceRange || jsTruthy qs.budget then
    let pq : RangeQuery := {}
    let pq := if jsTruthy qs.minPrice then
        { pq with gte := some (jsParseIntOpt qs.minPrice) } else pq
    let pq := if jsTruthy qs.maxPrice then
        { pq with lte := some (jsParseIntOpt qs.maxPrice) } else pq
    let pq := if jsTruthy qs.priceRange then
        assignRange pq (priceRangeTable (qs.priceRange.getD "")) else pq
    let budgetLte : Option JsNum :=
      some ((((jsParseIntOpt qs.budget).mul (.num 12)).mul (.num 20)).divC (8/10))
    let pq := if jsTruthy qs.budget then { pq with lte := budgetLte } else pq
    if pq.gte.isSome || pq.lte.isSome then some pq else none
  else none

/-- BSON numeric `$gte` test of a stored number `v` against a bound: in BSON
ordering `NaN` sorts below every number, so `v ≥ NaN` holds for every `v`. -/
def satGte (v : ℚ) : JsNum → Bool
  | .nan => true
  | .num b => b ≤ v

/-- BSON numeric `$lte` test of a stored number `v` against a bound: no number
is `≤ NaN`. -/
def satLte (v : ℚ) : JsNum → Bool
  | .nan => false
  | .num b => v ≤ b

/-- A stored numeric field value satisfies a `{ $gte, $lte }` pair. -/
def RangeQuery.sat (rq : RangeQuery) (v : ℚ) : Bool :=
  (match rq.gte with | none => true | some b => satGte v b) &&
  (match rq.lte with | none => true | some b => satLte v b)

/-! ## AdvancedApiFeatures: property filters (`propertyFilters`, 142-211) -/

/-- The `bedrooms` predicate: plain equality, or `$in` over a comma-split
list mapped through `Number`. -/
inductive BedroomsFilter where
  | eq : JsNum → BedroomsFilter
  | inSet : List JsNum → BedroomsFilter
deriving Repr, DecidableEq

/-- The `propertyType` predicate: plain equality or `$in` over a comma-split
list. -/
inductive StrFilter where
  | eq : String → StrFilter
  | inSet : List String → StrFilter
deriving Repr, DecidableEq

/-- The named `age` bucket table (apiFeatures.js 189-194). -/
def ageRangeTable : String → Option RangeQuery
  | "new" => some { lte := some (.num 1) }
  | "recent" => some { gte := some (.num 1), lte := some (.num 5) }
  | "established" => some { gte := some (.num 5), lte := some (.num 10) }
  | "old" => some { gte := some (.num 10) }
  | _ => none

/-- The filter object accumulated by `propertyFilters`.  `ageInYears` is
doubly optional because `filters.ageInYears = ageRanges[age]` creates the key
even when the bucket id is unknown (the value is then `undefined`). -/
structure PropFilters where
  bedrooms : Option BedroomsFilter := none
  bathrooms : Option JsNum := none
  areaSqft : Option RangeQuery := none
  propertyType : Option StrFilter := none
  furnishing : Option String := none
  parking : Option JsNum := none
  ageInYears : Option (Option RangeQuery) := none
  facing : Option (List String) := none
  amenitiesAll : Option (List String) := none
deriving Repr, DecidableEq

/-- `Object.keys(filters).length > 0` for the accumulated filter object. -/
def PropFilters.nonEmpty (f : PropFilters) : Bool :=
  f.bedrooms.isSome || f.bathrooms.isSome || f.areaSqft.isSome ||
  f.propertyType.isSome || f.furnishing.isSome || f.parking.isSome ||
  f.ageInYears.isSome || f.facing.isSome || f.amenitiesAll.isSome

/-- `AdvancedApiFeatures.propertyFilters`: the attribute predicate group that
is added to the query, or `none` when it stays empty. -/
def propertyFilters (qs : QueryString) : Option PropFilters :=
  let f : PropFilters := {}
  let f := if jsTruthy qs.bedrooms then
      let s := qs.bedrooms.getD ""
      if jsIncludes s "," then
        { f with bedrooms := some (.inSet ((s.splitOn ",").map jsNumber)) }
      else
        { f with bedrooms := some (.eq (jsParseInt s)) }
    else f
  let f := if jsTruthy qs.bathrooms then
      { f with bathrooms := some (jsParseIntOpt qs.bathrooms) } else f
  let areaRange : RangeQuery :=
    { gte := if jsTruthy qs.minArea then some (jsParseIntOpt qs.minArea) else none,
      lte := if jsTruthy qs.maxArea then some (jsParseIntOpt qs.maxArea) else none }
  let f := if jsTruthy qs.minArea || jsTruthy qs.maxArea then
      { f with areaSqft := some areaRange }
    else f
  let f := if jsTruthy qs.propertyType then
      let s := qs.propertyType.getD ""
      if jsIncludes s "," then
        { f with propertyType := some (.inSet (s.splitOn ",")) }
      else
        { f with propertyType := some (.eq s) }
    else f
  let f := if jsTruthy qs.furnishing then
      { f with furnishing := qs.furnishing } else f
  let f := if jsTruthy qs.parking then
      { f with parking := some (jsParseIntOpt qs.parking) } else f
  let f := if jsTruthy qs.age then
      { f with ageInYears := some (ageRangeTable (qs.age.getD "")) } else f
  let f := if jsTruthy qs.facing then
      { f with facing := some ((qs.facing.getD "").splitOn ",") } else f
  let f := if jsTruthy qs.amenities then
      { f with amenitiesAll := some ((qs.amenities.getD "").splitOn ",") } else f
  if f.nonEmpty then some f else none

/-! ## AdvancedApiFeatures: geo search (`geoSearch`, 214-251) -/

/-- The `$geoWithin`/`$centerSphere` filter built by the `lat && lng && radius`
branch of `AdvancedApiFeatures.geoSearch`.  The radius is divided by Earth
radius 6378.1 with NO clamping. -/
structure GeoFilter where
  lng : JsNum
  lat : JsNum
  radiusRadians : JsNum
deriving Repr, DecidableEq

/-- `AdvancedApiFeatures.geoSearch` (the radius branch): the geo predicate
added to the query, or `none` when any of lat/lng/radius is missing. -/
def geoSearchFilter (qs : QueryString) : Option GeoFilter :=
  if jsTruthy qs.lat && jsTruthy qs.lng && jsTruthy qs.radius then
    some { lng := jsParseFloat (qs.lng.getD ""),
           lat := jsParseFloat (qs.lat.getD ""),
           radiusRadians := (jsParseFloat (qs.radius.getD "")).divC (63781/10) }
  else none

/-- A stored listing as the geo index sees it: its angular distance (radians)
from the centre of the request, plus identity and status. -/
structure GeoDoc where
  id : ℕ
  status : String
  angDist : ℚ
deriving Repr, DecidableEq

/-- The match set of the geo predicate of `AdvancedApiFeatures.geoSearch` over
a base query that already restricted to the given docs: `$centerSphere`
matches docs whose angular distance is at most the radius. -/
def geoSearchResults (qs : QueryString) (db : List GeoDoc) : List GeoDoc :=
  match geoSearchFilter qs with
  | none => db
  | some g => db.filter fun d => satLte d.angDist g.radiusRadians

/-! ## getNearbyProperties (propertyController.js 585-647) -/

/-- `Math.min(Number(distance), 50)` with the destructuring default
`distance = 5`. -/
def nearbyMaxDistance (distance : Option String) : JsNum :=
  let d : JsNum := match distance with | none => .num 5 | some s => jsNumber s
  JsNum.jsMin d (.num 50)

/-- The radius in radians used by `getNearbyProperties`: the clamped distance
divided by 3963.2 (miles) or 6378.1 (kilometres). -/
def nearbyEffectiveRadius (distance : Option String) (unit : String) : JsNum :=
  (nearbyMaxDistance distance).divC (if unit = "mi" then 39632/10 else 63781/10)

/-- The match set of the geo query of `getNearbyProperties` (before pagination):
`$centerSphere` over the clamped radius, restricted to active listings. -/
def nearbyResults (distance : Option String) (unit : String)
    (db : List GeoDoc) : List GeoDoc :=
  db.filter fun d =>
    satLte d.angDist (nearbyEffectiveRadius distance unit) && d.status = "active"

/-! ## Pagination parsing -/

structure Pagination where
  page : ℚ
  limit : ℚ
  skip : ℚ
deriving Repr, DecidableEq

/-- `buildPagination` from propertyController.js (lines 24-29):
`page = Math.max(1, parseInt(page) || 1)`,
`limit = Math.min(50, Math.max(1, parseInt(limit) || 10))`. -/
def buildPaginationController (page limit : Option String) : Pagination :=
  let p : ℚ := max 1 ((jsParseIntOpt page).orDefault 1)
  let l : ℚ := min 50 (max 1 ((jsParseIntOpt limit).orDefault 10))
  { page := p, limit := l, skip := (p - 1) * l }

/-- `buildPagination` from utils/pagination.js (lines 1-9):
`page = Math.max(parseInt(page || "1", 10), 1)`,
`limit = Math.min(Math.max(parseInt(limit || "20", 10), 1), 100)`;
a `NaN` parse propagates through `Math.max`/`Math.min`. -/
def buildPaginationUtil (page limit : Option String) : JsNum × JsNum :=
  let p := JsNum.jsMax (jsParseInt (if jsTruthy page then page.getD "1" else "1")) (.num 1)
  let l := JsNum.jsMin
    (JsNum.jsMax (jsParseInt (if jsTruthy limit then limit.getD "20" else "20")) (.num 1))
    (.num 100)
  (p, l)

/-- `this.page` in the `AdvancedApiFeatures` constructor (apiFeatures.js 6):
`parseInt(queryString.page) || 1` — no lower clamp, negatives pass through. -/
def featuresPage (qs : QueryString) : ℚ :=
  (jsParseIntOpt qs.page).orDefault 1

/-- `this.limit` in the `AdvancedApiFeatures` constructor (apiFeatures.js 7):
`parseInt(queryString.limit) || 20` — no upper cap. -/
def featuresLimit (qs : QueryString) : ℚ :=
  (jsParseIntOpt qs.limit).orDefault 20

/-- The skip offset `(this.page - 1) * this.limit` of `advancedPaginate`
(apiFeatures.js 290). -/
def featuresSkip (qs : QueryString) : ℚ :=
  (featuresPage qs - 1) * featuresLimit qs

/-! ## Free-text activation (`advancedSearch`, apiFeatures.js 13-17) -/

/-- `const searchTerm = q || search`. -/
def searchTermOf (qs : QueryString) : Option String :=
  jsOrStr qs.q qs.search

/-- The guard `searchTerm` being truthy with a non-empty trim under which
`advancedSearch` converts to an aggregation, adds the free-text `$match`
stage and the score stage. -/
def advancedSearchActivates (qs : QueryString) : Bool :=
  match searchTermOf qs with
  | none => false
  | some s => s ≠ "" && jsTrim s ≠ ""

/-- Early-return gate shared by `getSearchSuggestionsHelper` (searchController
70-74) and the `getSearchSuggestions` endpoint (searchController 116-118):
suggestions are only computed when the raw term has length ≥ 2. -/
def suggestionsGateOpen (q : Option String) : Bool :=
  match q with
  | none => false
  | some s => s ≠ "" && decide (2 ≤ s.length)

/-- `getSearchSuggestions`: the suggestion list returned to the caller, given
the list the aggregation would produce. -/
def getSearchSuggestionsResult (q : Option String) (dbSuggestions : List String) :
    List String :=
  if suggestionsGateOpen q then dbSuggestions else []

/-! ## Relevance scoring (`advancedSearch` score stage, apiFeatures.js 36-70)
and sorting (`advancedSort`, 254-286) -/

/-- A document as the score stage sees it: the text fields the stage reads,
recency, and the optional `$meta: "textScore"` of the text-index match. -/
structure SearchDoc where
  title : String
  city : String
  createdAt : ℚ
  textScore : Option ℚ
deriving Repr, DecidableEq

/-- The fragment of Mongo aggregation expressions the score stage uses.
`add2`/`mul2` are binary; the three-element `$add` of the source is folded
right-associatively. -/
inductive AggExpr where
  | lit : ℚ → AggExpr
  | metaTextScore : AggExpr
  | ifNull : AggExpr → AggExpr → AggExpr
  | add2 : AggExpr → AggExpr → AggExpr
  | mul2 : AggExpr → AggExpr → AggExpr
  | condRegexMatchI : String → String → AggExpr → AggExpr → AggExpr
deriving Repr, DecidableEq

/-- Field-path resolution for the two field paths the score stage reads. -/
def SearchDoc.fieldStr (d : SearchDoc) : String → String
  | "$title" => d.title
  | "$location.city" => d.city
  | _ => ""

/-- Aggregation-expression evaluation over a document; `none` is BSON
null/missing (what `$ifNull` tests for). -/
def evalAggExpr (d : SearchDoc) : AggExpr → Option ℚ
  | .lit q => some q
  | .metaTextScore => d.textScore
  | .ifNull e dflt =>
    match evalAggExpr d e with
    | some v => some v
    | none => evalAggExpr d dflt
  | .add2 a b =>
    match evalAggExpr d a, evalAggExpr d b with
    | some x, some y => some (x + y)
    | _, _ => none
  | .mul2 a b =>
    match evalAggExpr d a, evalAggExpr d b with
    | some x, some y => some (x * y)
    | _, _ => none
  | .condRegexMatchI fld pat t e =>
    if regexMatchI (d.fieldStr fld) pat then evalAggExpr d t else evalAggExpr d e

/-- The `$addFields: { score: ... }` expression of `advancedSearch`
(apiFeatures.js 36-70): `$add` of the `$ifNull`-guarded text score times 1,
a `$cond` worth 5 on a case-insensitive title match, and a `$cond` worth 3 on
a case-insensitive city match. -/
def scoreExpr (term : String) : AggExpr :=
  .add2 (.mul2 (.ifNull .metaTextScore (.lit 0)) (.lit 1))
    (.add2 (.condRegexMatchI "$title" term (.lit 5) (.lit 0))
           (.condRegexMatchI "$location.city" term (.lit 3) (.lit 0)))

/-- The per-document relevance score the pipeline derives. -/
def scoreOf (term : String) (d : SearchDoc) : ℚ :=
  (evalAggExpr d (scoreExpr term)).getD 0

/-- The `sortOptions` table of `advancedSort` (apiFeatures.js 257-266), as
ordered (field, direction) lists; -1 is descending. -/
def sortOptionsTable : String → Option (List (String × Int))
  | "price_low" => some [("price", 1)]
  | "price_high" => some [("price", -1)]
  | "area_large" => some [("areaSqft", -1)]
  | "area_small" => some [("areaSqft", 1)]
  | "newest" => some [("createdAt", -1)]
  | "oldest" => some [("createdAt", 1)]
  | "relevance" => some [("score", -1), ("createdAt", -1)]
  | "popular" => some [("viewCount", -1), ("createdAt", -1)]
  | _ => none

/-- The sort criteria chosen by `advancedSort` (268-277): the table entry for
a truthy, recognized `sortBy` (otherwise the default `{createdAt: -1}`), with
`score` descending prepended when the plan is scored — under JS object spread
`{score: -1, ...sortCriteria}` an existing `score` key keeps the first
position, so it is deduplicated here. -/
def advancedSortCriteria (qs : QueryString) (scored : Bool) :
    List (String × Int) :=
  let base :=
    if jsTruthy qs.sortBy then
      (sortOptionsTable (qs.sortBy.getD "")).getD [("createdAt", -1)]
    else [("createdAt", -1)]
  if scored then ("score", -1) :: base.filter (fun kv => kv.1 ≠ "score") else base

/-- The two sort keys the documents of a scored pipeline carry. -/
structure RankedDoc where
  score : ℚ
  createdAt : ℚ
deriving Repr, DecidableEq

def RankedDoc.fieldVal (d : RankedDoc) : String → ℚ
  | "score" => d.score
  | "createdAt" => d.createdAt
  | _ => 0

/-- Mongo `$sort` comparison under ordered criteria: `a` strictly precedes
`b`. -/
def sortBefore (criteria : List (String × Int)) (a b : RankedDoc) : Bool :=
  match criteria with
  | [] => false
  | (k, dir) :: rest =>
    let av := a.fieldVal k
    let bv := b.fieldVal k
    if av = bv then sortBefore rest a b
    else if dir = -1 then decide (bv < av) else decide (av < bv)

/-! ## Property lifecycle: update / hold / resume
(propertyController.js 52-74, 771-834, 882-955) -/

/-- A listing as the lifecycle handlers see it. -/
structure PropertyRec where
  createdBy : ℕ
  status : String
deriving Repr, DecidableEq

/-- An authenticated actor. -/
structure Actor where
  id : ℕ
  role : String
deriving Repr, DecidableEq

/-- `ensureOwnerOrAdmin` (propertyController.js 19-22). -/
def ensureOwnerOrAdmin (p : PropertyRec) (u : Actor) : Bool :=
  u.role = "admin" || p.createdBy = u.id

/-- The whitelist of `sanitizePropertyData` (53-64); only admins get the
moderation fields, `status` among them. -/
def allowedFieldsFor (role : String) : List String :=
  let base := ["title", "description", "price", "location", "bedrooms",
    "bathrooms", "areaSqft", "propertyType", "furnishing", "parking", "floors",
    "ageInYears", "facing", "amenities", "nearbyMetro", "nearbyLandmarks",
    "images", "balconies", "pricePerSqft", "maintenanceCharges",
    "securityDeposit", "availableFrom", "isNegotiable", "contact"]
  if role = "admin" then
    base ++ ["status", "isFeatured", "featuredAt", "featuredTill",
      "isVerified", "priority"]
  else base

/-- `sanitizePropertyData` (52-74): keep exactly the allowed fields present in
the body, in whitelist order.  Polymorphic in the field-value type. -/
def sanitizePropertyData {V : Type} (data : List (String × V)) (role : String) :
    List (String × V) :=
  (allowedFieldsFor role).filterMap fun f => (data.lookup f).map fun v => (f, v)

inductive UpdateOutcome where
  | notFound
  | notAuthorized
  | invalidCoordinates
  | statusForbidden (s : String)
  | updated (newStatus : String)
deriving Repr, DecidableEq

/-- `validateCoordinates` (propertyController.js 37-50). -/
def validCoordinates (lat lng : String) : Bool :=
  match jsParseFloat lat, jsParseFloat lng with
  | .num la, .num ln =>
    decide (-90 ≤ la) && decide (la ≤ 90) && decide (-180 ≤ ln) && decide (ln ≤ 180)
  | _, _ => false

/-- `updateProperty` (propertyController.js 771-834), tracked through the
`status` field of the listing ($set semantics; schema-level validation of the other
whitelisted fields does not touch `status` and is not modelled).  The
nested status guard — outer `updateData.status && role !== "admin"`, inner
membership in the forbidden list with no other effect in the outer block — is
flattened into one conjunction. -/
def updateProperty (prop : Option PropertyRec) (user : Actor)
    (body : List (String × String)) : UpdateOutcome :=
  match prop with
  | none => .notFound
  | some p =>
    if ¬ensureOwnerOrAdmin p user then .notAuthorized
    else
      let updateData := sanitizePropertyData body user.role
      let coordBranch := (body.lookup "lat").isSome && (body.lookup "lng").isSome
      if coordBranch &&
         ¬validCoordinates ((body.lookup "lat").getD "") ((body.lookup "lng").getD "") then
        .invalidCoordinates
      else
        let st := updateData.lookup "status"
        let stTruthy := match st with | some s => s ≠ "" | none => false
        if stTruthy && user.role ≠ "admin" &&
           decide (st.getD "" ∈ ["active", "approved", "rejected", "sold"]) then
          .statusForbidden (st.getD "")
        else
          .updated ((updateData.lookup "status").getD p.status)

inductive ToggleOutcome where
  | notFound
  | notAuthorized
  | alreadyInState
  | ok (newStatus : String)
deriving Repr, DecidableEq

/-- `holdProperty` (propertyController.js 882-915). -/
def holdProperty (prop : Option PropertyRec) (user : Actor) : ToggleOutcome :=
  match prop with
  | none => .notFound
  | some p =>
    if ¬ensureOwnerOrAdmin p user then .notAuthorized
    else if p.status = "hold" then .alreadyInState
    else .ok "hold"

/-- `resumeProperty` (propertyController.js 922-955). -/
def resumeProperty (prop : Option PropertyRec) (user : Actor) : ToggleOutcome :=
  match prop with
  | none => .notFound
  | some p =>
    if ¬ensureOwnerOrAdmin p user then .notAuthorized
    else if p.status = "active" then .alreadyInState
    else .ok "active"

/-! ## Saved searches (`saveSearch`, searchController.js 315-441;
savedSearch.js schema) -/

/-- A stored saved search, restricted to the fields the duplicate check reads.
The schema trims `name` on write, so stored names are trimmed. -/
structure SavedSearchRec where
  userId : ℕ
  name : String
  isActive : Bool
deriving Repr, DecidableEq

inductive SaveOutcome where
  | missingName
  | missingQuery
  | duplicateName
  | created
deriving Repr, DecidableEq

/-- `saveSearch`: the response outcome and the saved-search collection
afterwards.  The filter payload is opaque (`hasQuery` mirrors the
`if (!searchQuery)` guard); its array normalization does not affect the
duplicate-name behaviour.  The duplicate probe is
`findOne({ userId, name: name.trim(), isActive: true })`. -/
def saveSearch (st : List SavedSearchRec) (uid : ℕ) (name : Option String)
    (hasQuery : Bool) : SaveOutcome × List SavedSearchRec :=
  if ¬jsTruthy name then (.missingName, st)
  else if ¬hasQuery then (.missingQuery, st)
  else
    let nm := jsTrim (name.getD "")
    match st.find? fun s => s.userId = uid && s.name = nm && s.isActive with
    | some _ => (.duplicateName, st)
    | none => (.created, st ++ [{ userId := uid, name := nm, isActive := true }])

/-- Deactivating every saved search of a user with a given (stored) name, as
`updateSavedSearch` with `isActive: false` does for its id. -/
def deactivateByName (st : List SavedSearchRec) (uid : ℕ) (nm : String) :
    List SavedSearchRec :=
  st.map fun s =>
    if s.userId = uid && s.name = nm then { s with isActive := false } else s

/-! ## Property creation and the role side effect
(`createProperty`, propertyController.js 81-223) -/

/-- The creation request body, restricted to the validated fields. -/
structure CreateBody where
  title : Option String := none
  description : Option String := none
  price : Option ℚ := none
  bedrooms : Option ℚ := none
  bathrooms : Option ℚ := none
  areaSqft : Option ℚ := none
  city : Option String := none
  state : Option String := none
  address : Option String := none
  area : Option String := none
  contactPhone : Option String := none
  lat : Option String := none
  lng : Option String := none
deriving Repr, DecidableEq

inductive CreateOutcome where
  | missingFields
  | missingLocation
  | missingPhone
  | missingCoordinates
  | invalidCoordinates
  | invalidBusiness
  | created (newUserRole : String) (roleUpdatedTo : Option String)
deriving Repr, DecidableEq

/-- The per-field required check of `createProperty` (line 101):
the field being `undefined`, `null` or the empty string. -/
def strFieldMissing : Option String → Bool
  | none => true
  | some s => s = ""

/-- `createProperty`: the validation chain (90-161) followed by the creation
and the role side effect (204-222).  On success, `created r u` carries the
role of the acting user after the handler (`r`) and the `roleUpdatedTo` field the
201 response spreads in when a `"user"` was auto-upgraded (`u`). -/
def createProperty (body : CreateBody) (userRole : String) : CreateOutcome :=
  if strFieldMissing body.title || strFieldMissing body.description ||
     body.price.isNone || body.bedrooms.isNone || body.bathrooms.isNone ||
     body.areaSqft.isNone then
    .missingFields
  else if ¬jsTruthy body.city || ¬jsTruthy body.state ||
          ¬jsTruthy body.address || ¬jsTruthy body.area then
    .missingLocation
  else if ¬jsTruthy body.contactPhone then .missingPhone
  else if body.lat.isNone || body.lng.isNone then .missingCoordinates
  else if ¬validCoordinates (body.lat.getD "") (body.lng.getD "") then
    .invalidCoordinates
  else if body.price.getD 0 ≤ 0 || body.areaSqft.getD 0 ≤ 0 ||
          body.bedrooms.getD 0 < 0 || body.bathrooms.getD 0 < 0 then
    .invalidBusiness
  else if userRole = "user" then .created "agent" (some "agent")
  else .created userRole none

/-- A fully valid creation body, used to instantiate the creation theorems. -/
def sampleCreateBody : CreateBody where
  title := some "Nice flat"
  description := some "desc"
  price := some 100
  bedrooms := some 2
  bathrooms := some 1
  areaSqft := some 50
  city := some "Kolkata"
  state := some "WB"
  address := some "12 Main St"
  area := some "Central"
  contactPhone := some "9999"
  lat := some "10"
  lng := some "20"

/-! ## The two public search handlers (C1):
`listPublicProperties` (propertyController.js 273-442) with its fallback, and
`advancedSearchProperties` (searchController.js 8-67) without one. -/

/-- A listing as the fallback query of `listPublicProperties` sees it. -/
structure PublicListing where
  id : ℕ
  status : String
  city : String
  area : String
  propertyType : String
  bedrooms : ℚ
  price : ℚ
  createdAt : ℚ
deriving Repr, DecidableEq

/-- BSON equality of a stored number against a parsed query value (`NaN`
equals no stored real number). -/
def satEq (v : ℚ) : JsNum → Bool
  | .nan => false
  | .num b => v = b

/-- The minimal fallback predicate built in the catch branch of
`listPublicProperties` (368-376): active status, city/area case-insensitive
substring, property-type and bedroom equality, and a price range parsed from
the raw params. -/
def fallbackPred (qs : QueryString) (l : PublicListing) : Bool :=
  l.status = "active" &&
  (!jsTruthy qs.city || regexMatchI l.city (qs.city.getD "")) &&
  (!jsTruthy qs.area || regexMatchI l.area (qs.area.getD "")) &&
  (!jsTruthy qs.propertyType || l.propertyType = qs.propertyType.getD "") &&
  (!jsTruthy qs.bedrooms || satEq l.bedrooms (jsParseIntOpt qs.bedrooms)) &&
  (!jsTruthy qs.minPrice || satGte l.price (jsParseIntOpt qs.minPrice)) &&
  (!jsTruthy qs.maxPrice || satLte l.price (jsParseIntOpt qs.maxPrice))

/-- Stable insertion into a list sorted by `createdAt` descending. -/
def insertByCreatedDesc (x : PublicListing) :
    List PublicListing → List PublicListing
  | [] => [x]
  | y :: ys =>
    if y.createdAt < x.createdAt then x :: y :: ys
    else y :: insertByCreatedDesc x ys

/-- `.sort({ createdAt: -1 })` of the fallback query. -/
def sortByCreatedDesc (l : List PublicListing) : List PublicListing :=
  l.foldr insertByCreatedDesc []

/-- An integral rational (the values `parseInt` produces) clamped to ℕ for
skip/take counts. -/
def ratToNat (q : ℚ) : ℕ :=
  (Rat.floor q).toNat

/-- The HTTP outcome of a listing-search handler. -/
structure ListResponse where
  httpStatus : ℕ
  success : Bool
  items : List PublicListing
  total : ℕ
deriving Repr, DecidableEq

/-- `listPublicProperties`: the advanced path is abstracted as the outcome
`planExec` of executing the built plan against the store; the catch branch
(362-394) — fallback find with `{createdAt: -1}` sort, skip
`((parseInt(page)||1)-1)*(parseInt(limit)||20)` and limit
`parseInt(limit)||20`, plus a full `countDocuments` — is translated
literally. -/
def listPublicProperties (planExec : Except Unit (List PublicListing × ℕ))
    (qs : QueryString) (db : List PublicListing) : ListResponse :=
  match planExec with
  | .ok (items, total) =>
    { httpStatus := 200, success := true, items := items, total := total }
  | .error _ =>
    let matched := db.filter (fallbackPred qs)
    let limit : ℚ := (jsParseIntOpt qs.limit).orDefault 20
    let skip : ℚ := ((jsParseIntOpt qs.page).orDefault 1 - 1) * limit
    { httpStatus := 200, success := true,
      items := ((sortByCreatedDesc matched).drop (ratToNat skip)).take (ratToNat limit),
      total := matched.length }

/-- The HTTP outcome of `advancedSearchProperties`. -/
structure SearchResponse where
  httpStatus : ℕ
  success : Bool
deriving Repr, DecidableEq

/-- `advancedSearchProperties` (searchController.js 8-67): the handler body is
one big try/catch whose catch (59-66) responds with HTTP 500 — there is no
fallback query on this endpoint. -/
def advancedSearchProperties (exec : Except Unit (List PublicListing × ℕ)) :
    SearchResponse :=
  match exec with
  | .ok _ => { httpStatus := 200, success := true }
  | .error _ => { httpStatus := 500, success := false }

/-! ## Helper lemmas -/

/-- A key outside a whitelist is absent from the sanitized association list. -/
theorem lookup_filterMap_not_mem {V : Type} (fields : List String)
    (data : List (String × V)) (k : String) (hk : k ∉ fields) :
    (fields.filterMap fun f => (data.lookup f).map fun v => (f, v)).lookup k
      = none := by
  induction fields with
  | nil => rfl
  | cons f fs ih =>
    have hkf : k ≠ f := fun h => hk (h ▸ List.mem_cons_self f fs)
    have hks : k ∉ fs := fun h => hk (List.mem_cons_of_mem _ h)
    simp only [List.filterMap_cons]
    cases data.lookup f with
    | none => exact ih hks
    | some v =>
      simp only [Option.map_some, List.lookup]
      have hbeq : (k == f) = false := by simpa using hkf
      rw [hbeq]
      exact ih hks

/-- For non-admin roles, `sanitizePropertyData` strips `status`. -/
theorem sanitize_status_none {V : Type} (data : List (String × V))
    (role : String) (hrole : role ≠ "admin") :
    (sanitizePropertyData data role).lookup "status" = none := by
  unfold sanitizePropertyData allowedFieldsFor
  rw [if_neg hrole]
  exact lookup_filterMap_not_mem _ data "status" (by decide)

/-! ## Claim C7 -/

/-- C7, counterexample.  The claim says a malformed numeric string (e.g.
`minPrice=abc`) makes the parser omit the filter of that field entirely, so the
predicate set would equal the one with the parameter absent.  In the code
`if (minPrice)` is true for any non-empty string and `parseInt("abc")` is
`NaN`, so a price predicate with a `NaN` lower bound IS emitted, while the
absent parameter yields no price predicate at all. -/
theorem claim7_counterexample :
    priceFilter { minPrice := some "abc" } =
      some { gte := some JsNum.nan, lte := none } ∧
    priceFilter ({} : QueryString) = none := by
  exact ⟨by decide, by decide⟩

/-- C7, amended: a malformed numeric string in minPrice/maxPrice/bedrooms/
bathrooms/minArea/maxArea/parking does not omit the filter of the field — the
filter is emitted with a `NaN` bound (`parseInt` of the malformed string);
the request is still not rejected (the builders are total).  Only an absent
or empty-string parameter omits the filter. -/
theorem claim7_amended (s : String) (hs : s ≠ "") (hnan : jsParseInt s = .nan)
    (hcomma : jsIncludes s "," = false) :
    priceFilter { minPrice := some s } =
      some { gte := some JsNum.nan, lte := none } ∧
    priceFilter { maxPrice := some s } =
      some { gte := none, lte := some JsNum.nan } ∧
    propertyFilters { bedrooms := some s } =
      some { bedrooms := some (.eq JsNum.nan) } ∧
    propertyFilters { bathrooms := some s } =
      some { bathrooms := some JsNum.nan } ∧
    propertyFilters { minArea := some s } =
      some { areaSqft := some { gte := some JsNum.nan, lte := none } } ∧
    propertyFilters { maxArea := some s } =
      some { areaSqft := some { gte := none, lte := some JsNum.nan } } ∧
    propertyFilters { parking := some s } =
      some { parking := some JsNum.nan } := by
  refine ⟨?_, ?_, ?_, ?_, ?_, ?_, ?_⟩ <;>
    simp [priceFilter, propertyFilters, jsTruthy, jsParseIntOpt, hs, hnan, hcomma,
      PropFilters.nonEmpty]

/-- C7, witness for the amended theorem at `s = "abc"`. -/
theorem claim7_witness :
    priceFilter { minPrice := some "abc" } =
      some { gte := some JsNum.nan, lte := none } ∧
    propertyFilters { bedrooms := some "abc" } =
      some { bedrooms := some (.eq JsNum.nan) } := by
  have h := claim7_amended "abc" (by decide) (by decide) (by decide)
  exact ⟨h.1, h.2.2.1⟩

/-! ## Claim C8 -/

/-- C8, counterexample.  The claim says bucket boundaries are half-open with
an exclusive upper bound (bucket 2 → `[2,500,000, 5,000,000)`).  The code
builds `{ $gte: 2500000, $lte: 5000000 }`, and a listing priced exactly
5,000,000 satisfies that predicate — the interval is closed, not half-open.
-/
theorem claim8_counterexample :
    priceFilter { priceRange := some "2" } =
      some { gte := some (.num 2500000), lte := some (.num 5000000) } ∧
    RangeQuery.sat { gte := some (.num 2500000), lte := some (.num 5000000) }
      5000000 = true := by
  constructor
  · decide
  · simp [RangeQuery.sat, satGte, satLte]
    norm_num

/-- C8, amended: every bucket id in the fixed table yields exactly the
boundaries of the table, but as a closed interval (`$lte`, upper bound inclusive);
bucket 5 has no upper bound; a bucket id outside the table yields no price
predicate. -/
theorem claim8_amended (s : String) (hs : priceRangeTable s = none)
    (hne : s ≠ "") :
    priceFilter { priceRange := some "1" } =
      some { gte := some (.num 0), lte := some (.num 2500000) } ∧
    priceFilter { priceRange := some "2" } =
      some { gte := some (.num 2500000), lte := some (.num 5000000) } ∧
    priceFilter { priceRange := some "3" } =
      some { gte := some (.num 5000000), lte := some (.num 10000000) } ∧
    priceFilter { priceRange := some "4" } =
      some { gte := some (.num 10000000), lte := some (.num 20000000) } ∧
    priceFilter { priceRange := some "5" } =
      some { gte := some (.num 20000000), lte := none } ∧
    (∀ v : ℚ, RangeQuery.sat
        { gte := some (.num 2500000), lte := some (.num 5000000) } v =
      (decide (2500000 ≤ v) && decide (v ≤ 5000000))) ∧
    priceFilter { priceRange := some s } = none := by
  refine ⟨by decide, by decide, by decide, by decide, by decide, ?_, ?_⟩
  · intro v
    simp [RangeQuery.sat, satGte, satLte]
  · simp [priceFilter, jsTruthy, hne, hs, assignRange]

/-- C8, witness for the amended theorem at the out-of-table id `s = "6"`. -/
theorem claim8_witness :
    priceFilter { priceRange := some "6" } = none ∧
    RangeQuery.sat { gte := some (.num 2500000), lte := some (.num 5000000) }
      3000000 = (decide ((2500000:ℚ) ≤ 3000000) && decide ((3000000:ℚ) ≤ 5000000)) := by
  have h := claim8_amended "6" (by decide) (by decide)
  exact ⟨h.2.2.2.2.2.2, h.2.2.2.2.2.1 3000000⟩

/-! ## Claim C9 -/

/-- C9, counterexample.  The claim says free-text matching activates iff the
trimmed term has length ≥ 2, so a one-character term would yield the same
plan as no term.  In the code the guard is only `searchTerm &&
searchTerm.trim()` being non-empty: the one-character term `"a"` activates the
free-text match/score stages while the absent term does not, so the plans
differ. -/
theorem claim9_counterexample :
    advancedSearchActivates { q := some "a" } = true ∧
    advancedSearchActivates ({} : QueryString) = false ∧
    ("a".length < 2) := by
  exact ⟨by decide, by decide, by decide⟩

/-- C9, amended: free-text matching and scoring in the main search pipeline
activate iff the term (`q`, else `search`) is non-empty after trimming —
length ≥ 1, not ≥ 2; the ≥ 2 threshold exists only on the
suggestions/autocomplete endpoints, which return an empty suggestion list for
shorter raw terms. -/
theorem claim9_amended (qs : QueryString) :
    (advancedSearchActivates qs = true ↔
      ∃ s, searchTermOf qs = some s ∧ jsTrim s ≠ "") ∧
    (∀ (q : String) (sugg : List String), q.length < 2 →
      getSearchSuggestionsResult (some q) sugg = []) := by
  constructor
  · unfold advancedSearchActivates
    cases h : searchTermOf qs with
    | none => simp
    | some s =>
      simp only [Bool.and_eq_true, decide_eq_true_eq]
      constructor
      · rintro ⟨-, h2⟩
        exact ⟨s, rfl, by simpa using h2⟩
      · rintro ⟨t, ht, h2⟩
        cases ht
        refine ⟨?_, by simpa using h2⟩
        intro hempty
        apply h2
        subst hempty
        rfl
  · intro q sugg hlen
    unfold getSearchSuggestionsResult suggestionsGateOpen
    have : ¬(2 ≤ q.length) := by omega
    simp [this]

/-- C9, witness for the amended theorem: the two-character term `"ab"`
activates, and a one-character raw term gets no suggestions. -/
theorem claim9_witness :
    advancedSearchActivates { q := some "ab" } = true ∧
    getSearchSuggestionsResult (some "a") ["x"] = [] := by
  refine ⟨?_, (claim9_amended ({} : QueryString)).2 "a" ["x"] (by decide)⟩
  exact (claim9_amended { q := some "ab" }).1.mpr ⟨"ab", rfl, by decide⟩

/-! ## Claim C5 -/

/-- C5, counterexample.  The claim says the effective page size of every
parsed pagination of every search request never exceeds 50 and the page number is at
least 1.  The `AdvancedApiFeatures` constructor — the parser every search
endpoint uses — does `parseInt(limit) || 20` and `parseInt(page) || 1` with
no clamping: `limit=100` stays 100 and `page=-5` stays −5, making the skip
offset negative. -/
theorem claim5_counterexample :
    featuresLimit { limit := some "100" } = 100 ∧
    50 < featuresLimit { limit := some "100" } ∧
    featuresPage { page := some "-5" } = -5 ∧
    featuresPage { page := some "-5" } < 1 ∧
    featuresSkip { page := some "-5", limit := some "10" } < 0 := by
  have hl : featuresLimit { limit := some "100" } = 100 := rfl
  have hp : featuresPage { page := some "-5" } = -5 := rfl
  have hl10 : featuresLimit { page := some "-5", limit := some "10" } = 10 := rfl
  have hp5 : featuresPage { page := some "-5", limit := some "10" } = -5 := rfl
  refine ⟨hl, ?_, hp, ?_, ?_⟩
  · rw [hl]; norm_num
  · rw [hp]; norm_num
  · unfold featuresSkip
    rw [hl10, hp5]; norm_num

/-- C5, amended: the 50-cap and the `page ≥ 1` floor hold only for
`buildPagination` in propertyController.js (whose skip is then never
negative); the `AdvancedApiFeatures` constructor used by the search pipeline
applies defaults (1, 20) for absent/`NaN`/`0` input but passes any other
integer through unclamped; the `buildPagination` of utils/pagination.js caps
the limit at 100 (`NaN` input propagates). -/
theorem claim5_amended (page limit : Option String) :
    1 ≤ (buildPaginationController page limit).page ∧
    1 ≤ (buildPaginationController page limit).limit ∧
    (buildPaginationController page limit).limit ≤ 50 ∧
    0 ≤ (buildPaginationController page limit).skip ∧
    (∀ v : ℚ, jsParseIntOpt limit = .num v → v ≠ 0 →
      featuresLimit { limit := limit } = v) ∧
    ((buildPaginationUtil page limit).2 = .nan ∨
      ∃ q : ℚ, (buildPaginationUtil page limit).2 = .num q ∧ 1 ≤ q ∧ q ≤ 100) := by
  unfold buildPaginationController buildPaginationUtil featuresLimit
  dsimp only
  have hpage : (1:ℚ) ≤ max 1 ((jsParseIntOpt page).orDefault 1) := le_max_left _ _
  have hlim1 : (1:ℚ) ≤ min 50 (max 1 ((jsParseIntOpt limit).orDefault 10)) :=
    le_min (by norm_num) (le_max_left _ _)
  refine ⟨hpage, hlim1, min_le_left _ _, ?_, ?_, ?_⟩
  · exact mul_nonneg (by linarith) (by linarith)
  · intro v hv hv0
    rw [hv]
    simp [JsNum.orDefault, hv0]
  · cases h : jsParseInt (if jsTruthy limit then limit.getD "20" else "20") with
    | nan => left; rfl
    | num q =>
      right
      refine ⟨min (max q 1) 100, rfl, ?_, min_le_right _ _⟩
      exact le_min (le_max_right _ _) (by norm_num)

/-- C5, witness for the amended theorem at `page="-5"`, `limit="100"`. -/
theorem claim5_witness :
    (buildPaginationController (some "-5") (some "100")).limit ≤ 50 ∧
    1 ≤ (buildPaginationController (some "-5") (some "100")).page ∧
    featuresLimit { limit := some "100" } = 100 := by
  have h := claim5_amended (some "-5") (some "100")
  exact ⟨h.2.2.1, h.1, h.2.2.2.2.1 100 (by rfl) (by norm_num)⟩

/-! ## Claim C2 -/

/-- C2, counterexample.  The claim says a non-admin setting `status` to
`active` fails with an AuthorizationError.  In the code
`sanitizePropertyData` strips `status` for non-admins, so the (unreachable)
status guard never fires and the update simply succeeds with the status
unchanged — no error of any kind is raised. -/
theorem claim2_counterexample :
    updateProperty (some ⟨1, "pending"⟩) ⟨1, "agent"⟩ [("status", "active")] =
      .updated "pending" := by
  decide

/-- C2, amended: the attempt of a non-admin actor to set any status (including
`active`/`approved`/`rejected`/`sold`) is silently discarded — sanitization
strips the field, the in-code 400 guard is unreachable, and the update
succeeds with the status of the listing unchanged (no AuthorizationError and no
ValidationError); the `hold` → `active` toggle by the owner via `resumeProperty`
succeeds. -/
theorem claim2_amended (p : PropertyRec) (u : Actor)
    (body : List (String × String)) (hrole : u.role ≠ "admin")
    (hown : ensureOwnerOrAdmin p u = true)
    (hlat : body.lookup "lat" = none) :
    updateProperty (some p) u body = .updated p.status ∧
    resumeProperty (some ⟨u.id, "hold"⟩) u = .ok "active" := by
  constructor
  · unfold updateProperty
    simp [hown, hlat, sanitize_status_none body u.role hrole]
  · unfold resumeProperty
    simp [ensureOwnerOrAdmin]

/-- C2, witness for the amended theorem: agent 7 updating their own pending
listing with `status: "sold"` in the body. -/
theorem claim2_witness :
    updateProperty (some ⟨7, "pending"⟩) ⟨7, "agent"⟩
        [("title", "T"), ("status", "sold")] = .updated "pending" ∧
    resumeProperty (some ⟨7, "hold"⟩) ⟨7, "agent"⟩ = .ok "active" :=
  claim2_amended ⟨7, "pending"⟩ ⟨7, "agent"⟩ [("title", "T"), ("status", "sold")]
    (by decide) (by decide) (by decide)

/-! ## Claim C6 -/

/-- C6: saving under a trimmed name that equals the trimmed name of one of
the active saved searches of the user is rejected as a duplicate and persists
nothing; with no active same-named search — a different name, or the earlier
search deactivated — the save succeeds and appends the new (trimmed-name,
active) record.  `htrim` is the schema invariant: stored names are trimmed
on write. -/
theorem claim6_saveSearch (st : List SavedSearchRec) (uid : ℕ) (nm : String)
    (hnm : nm ≠ "") (htrim : ∀ s ∈ st, jsTrim s.name = s.name) :
    ((∃ s ∈ st, s.userId = uid ∧ jsTrim s.name = jsTrim nm ∧ s.isActive = true) →
      saveSearch st uid (some nm) true = (.duplicateName, st)) ∧
    ((∀ s ∈ st, ¬(s.userId = uid ∧ s.name = jsTrim nm ∧ s.isActive = true)) →
      saveSearch st uid (some nm) true =
        (.created, st ++ [⟨uid, jsTrim nm, true⟩])) ∧
    (∀ hq : Bool, (deactivateByName st uid (jsTrim nm)).find?
        (fun s => s.userId = uid && s.name = jsTrim nm && s.isActive) = none ∧
      saveSearch (deactivateByName st uid (jsTrim nm)) uid (some nm) hq =
        (if hq then
          (.created, deactivateByName st uid (jsTrim nm) ++ [⟨uid, jsTrim nm, true⟩])
        else (.missingQuery, deactivateByName st uid (jsTrim nm)))) := by
  have hfind_none : ∀ (l : List SavedSearchRec),
      (∀ s ∈ l, ¬(s.userId = uid ∧ s.name = jsTrim nm ∧ s.isActive = true)) →
      l.find? (fun s => s.userId = uid && s.name = jsTrim nm && s.isActive) = none := by
    intro l hl
    rw [List.find?_eq_none]
    intro x hx
    simp only [Bool.and_eq_true, decide_eq_true_eq]
    rintro ⟨⟨h1, h2⟩, h3⟩
    exact hl x hx ⟨h1, h2, h3⟩
  refine ⟨?_, ?_, ?_⟩
  · rintro ⟨s, hs, h1, h2, h3⟩
    have hname : s.name = jsTrim nm := by rw [← htrim s hs]; exact h2
    unfold saveSearch
    cases hcase : st.find?
        (fun s => s.userId = uid && s.name = jsTrim nm && s.isActive) with
    | none =>
      exfalso
      have := List.find?_eq_none.mp hcase s hs
      simp only [Bool.and_eq_true, decide_eq_true_eq] at this
      exact this ⟨⟨h1, hname⟩, h3⟩
    | some x => simp [jsTruthy, hnm, hcase]
  · intro hnodup
    unfold saveSearch
    simp [jsTruthy, hnm, hfind_none st hnodup]
  · intro hq
    have hnone : (deactivateByName st uid (jsTrim nm)).find?
        (fun s => s.userId = uid && s.name = jsTrim nm && s.isActive) = none := by
      apply hfind_none
      intro x hx
      unfold deactivateByName at hx
      obtain ⟨s, hs, rfl⟩ := List.mem_map.mp hx
      by_cases hcond : (s.userId = uid && s.name = jsTrim nm) = true
      · simp only [hcond, if_true]
        rintro ⟨-, -, habs⟩
        simp at habs
      · simp only [hcond, if_false]
        simp only [Bool.and_eq_true, decide_eq_true_eq] at hcond
        rintro ⟨ha, hb, -⟩
        exact hcond ⟨by simpa using ha, by simpa using hb⟩
    refine ⟨hnone, ?_⟩
    cases hq with
    | true =>
      unfold saveSearch
      simp [jsTruthy, hnm, hnone]
    | false =>
      unfold saveSearch
      simp [jsTruthy, hnm]

/-- C6, witness: user 1 already has an active "My Search"; re-saving the same
name is rejected with the collection unchanged, while saving after
deactivation succeeds and appends. -/
theorem claim6_witness :
    saveSearch [⟨1, "My Search", true⟩] 1 (some "My Search") true =
      (.duplicateName, [⟨1, "My Search", true⟩]) ∧
    saveSearch [⟨1, "My Search", false⟩] 1 (some "Other") true =
      (.created, [⟨1, "My Search", false⟩, ⟨1, "Other", true⟩]) := by
  constructor
  · exact (claim6_saveSearch [⟨1, "My Search", true⟩] 1 "My Search" (by decide)
      (by decide)).1 ⟨⟨1, "My Search", true⟩, by decide, by decide, by decide, rfl⟩
  · exact (claim6_saveSearch [⟨1, "My Search", false⟩] 1 "Other" (by decide)
      (by decide)).2.1 (by decide)

/-! ## Claim C10 -/

/-- C10, counterexample.  The claim says the role change on the first
property creation is silent.  The 201 response spreads in
`roleUpdatedTo: "agent"` (`...(roleUpdate && { roleUpdatedTo: roleUpdate })`),
so the upgrade is announced to the caller, not silent. -/
theorem claim10_counterexample :
    createProperty sampleCreateBody "user" = .created "agent" (some "agent") ∧
    (some "agent" : Option String) ≠ none := by
  exact ⟨by decide, by decide⟩

/-- C10, amended: every successful creation by a `"user"`-role actor changes
the role of the actor to `"agent"` and reports it in the response via
`roleUpdatedTo`; actors with any other role (`"agent"`, `"admin"`) keep their
role and the response carries no `roleUpdatedTo` field. -/
theorem claim10_amended (body : CreateBody) (role : String) (r : String)
    (u : Option String) (h : createProperty body role = .created r u) :
    r = (if role = "user" then "agent" else role) ∧
    u = (if role = "user" then some "agent" else none) := by
  unfold createProperty at h
  split at h
  · exact absurd h (by simp)
  split at h
  · exact absurd h (by simp)
  split at h
  · exact absurd h (by simp)
  split at h
  · exact absurd h (by simp)
  split at h
  · exact absurd h (by simp)
  split at h
  · exact absurd h (by simp)
  by_cases hrole : role = "user"
  · rw [if_pos hrole] at h
    cases h
    rw [if_pos hrole, if_pos hrole]
    exact ⟨rfl, rfl⟩
  · rw [if_neg hrole] at h
    cases h
    rw [if_neg hrole, if_neg hrole]
    exact ⟨rfl, rfl⟩

/-- C10, witness for the amended theorem at a concrete valid body with role
`"agent"`. -/
theorem claim10_witness :
    createProperty sampleCreateBody "agent" = .created "agent" none ∧
    ("agent" : String) = (if ("agent" : String) = "user" then "agent" else "agent") ∧
    (none : Option String) = (if ("agent" : String) = "user" then some "agent" else none) := by
  have h := claim10_amended sampleCreateBody "agent" "agent" none (by decide)
  exact ⟨by decide, h.1, h.2⟩

/-! ## Claim C4 -/

/-- The score stage evaluates to the weighted sum: base text-match weight
times 1, plus 5 on a case-insensitive title match, plus 3 on a
case-insensitive city match. -/
theorem scoreOf_eq (term : String) (d : SearchDoc) :
    scoreOf term d = d.textScore.getD 0 * 1
      + (if regexMatchI d.title term then 5 else 0)
      + (if regexMatchI d.city term then 3 else 0) := by
  have ht : d.fieldStr "$title" = d.title := rfl
  have hc : d.fieldStr "$location.city" = d.city := rfl
  unfold scoreOf scoreExpr
  simp only [evalAggExpr, ht, hc]
  cases h : d.textScore <;>
    cases h1 : regexMatchI d.title term <;>
      cases h2 : regexMatchI d.city term <;>
        (simp [h, h1, h2]; try ring)

/-- C4: the per-document relevance score of the pipeline is the weighted sum
1×textScore + 5·(title contains term) + 3·(city contains term), the
relevance sort is score descending then recency descending, and under it two
documents with equal recency and equal base text weight — one matching the
term only in the title, the other only in the city — are ordered with the
title match first. -/
theorem claim4_scored_ordering (term : String) (a b : SearchDoc)
    (hts : a.textScore = b.textScore) (_hrec : a.createdAt = b.createdAt)
    (hat : regexMatchI a.title term = true) (hac : regexMatchI a.city term = false)
    (hbt : regexMatchI b.title term = false) (hbc : regexMatchI b.city term = true) :
    (∀ d : SearchDoc, scoreOf term d = d.textScore.getD 0 * 1
      + (if regexMatchI d.title term then 5 else 0)
      + (if regexMatchI d.city term then 3 else 0)) ∧
    advancedSortCriteria { sortBy := some "relevance" } true =
      [("score", -1), ("createdAt", -1)] ∧
    sortBefore (advancedSortCriteria { sortBy := some "relevance" } true)
      ⟨scoreOf term a, a.createdAt⟩ ⟨scoreOf term b, b.createdAt⟩ = true := by
  have hcrit : advancedSortCriteria { sortBy := some "relevance" } true =
      [("score", -1), ("createdAt", -1)] := by decide
  refine ⟨scoreOf_eq term, hcrit, ?_⟩
  rw [hcrit]
  have ha : scoreOf term a = a.textScore.getD 0 * 1 + 5 + 0 := by
    rw [scoreOf_eq, hat, hac]
    simp
  have hb : scoreOf term b = b.textScore.getD 0 * 1 + 0 + 3 := by
    rw [scoreOf_eq, hbt, hbc]
    simp
  unfold sortBefore
  simp only [RankedDoc.fieldVal, ha, hb, hts]
  have hne : ¬(b.textScore.getD 0 * 1 + 5 + 0 = b.textScore.getD 0 * 1 + 0 + 3) := by
    intro hcontra
    nlinarith [hcontra]
  rw [if_neg hne]
  rw [if_pos trivial]
  simp only [decide_eq_true_eq]
  nlinarith

/-- C4, witness: with term "kolkata", equal recency and equal base text
weight, the title-only match ranks before the city-only match. -/
theorem claim4_witness :
    sortBefore (advancedSortCriteria { sortBy := some "relevance" } true)
      ⟨scoreOf "kolkata" ⟨"Flat in Kolkata", "Mumbai", 0, some 1⟩, 0⟩
      ⟨scoreOf "kolkata" ⟨"Nice flat", "Kolkata", 0, some 1⟩, 0⟩ = true := by
  exact (claim4_scored_ordering "kolkata" ⟨"Flat in Kolkata", "Mumbai", 0, some 1⟩
    ⟨"Nice flat", "Kolkata", 0, some 1⟩ rfl rfl (by decide) (by decide)
    (by decide) (by decide)).2.2

/-! ## Claim C3 -/

/-- C3, counterexample.  The claim says every geo radius search clamps to
min(requested, 50 km), so a 200 km request would return the same result set
as a 50 km request.  `AdvancedApiFeatures.geoSearch` applies no clamp: a
listing about 100 km out (angular distance 100/6378.1) matches the 200 km
request but not the 50 km request, so the result sets differ. -/
theorem claim3_counterexample :
    geoSearchResults { lat := some "10", lng := some "20", radius := some "200" }
        [⟨1, "active", 100 / (63781/10)⟩] = [⟨1, "active", 100 / (63781/10)⟩] ∧
    geoSearchResults { lat := some "10", lng := some "20", radius := some "50" }
        [⟨1, "active", 100 / (63781/10)⟩] = [] := by
  have h200 : geoSearchFilter { lat := some "10", lng := some "20", radius := some "200" } =
      some { lng := .num 20, lat := .num 10, radiusRadians := .num ((200 : ℚ) / (63781/10)) } := rfl
  have h50 : geoSearchFilter { lat := some "10", lng := some "20", radius := some "50" } =
      some { lng := .num 20, lat := .num 10, radiusRadians := .num ((50 : ℚ) / (63781/10)) } := rfl
  constructor
  · unfold geoSearchResults
    rw [h200]
    simp only [List.filter, satLte]
    norm_num
  · unfold geoSearchResults
    rw [h50]
    simp only [List.filter, satLte]
    norm_num

/-- C3, amended: only `getNearbyProperties` clamps the radius — its effective
radius is min(requested, 50) divided by 6378.1 (km), so a 200 km request
yields exactly the 50 km result set on that endpoint;
`AdvancedApiFeatures.geoSearch` divides the raw requested radius by 6378.1
with no clamp. -/
theorem claim3_amended (q : ℚ) (hq : 50 ≤ q) (s : String)
    (hs : jsNumber s = .num q) :
    nearbyMaxDistance (some s) = .num 50 ∧
    nearbyEffectiveRadius (some s) "km" = .num (50 / (63781/10)) ∧
    (∀ db, nearbyResults (some s) "km" db = nearbyResults (some "50") "km" db) ∧
    (∀ (la ln r : String), la ≠ "" → ln ≠ "" → r ≠ "" →
      geoSearchFilter { lat := some la, lng := some ln, radius := some r } =
        some { lng := jsParseFloat ln, lat := jsParseFloat la,
               radiusRadians := (jsParseFloat r).divC (63781/10) }) := by
  have hmax : nearbyMaxDistance (some s) = .num 50 := by
    show (jsNumber s).jsMin (.num 50) = .num 50
    rw [hs]
    show JsNum.num (min q 50) = .num 50
    rw [min_eq_right hq]
  have heff : nearbyEffectiveRadius (some s) "km" = .num (50 / (63781/10)) := by
    unfold nearbyEffectiveRadius
    rw [hmax]
    rfl
  have heff50 : nearbyEffectiveRadius (some "50") "km" = .num (50 / (63781/10)) := by
    show ((jsNumber "50").jsMin (.num 50)).divC
      (if ("km" : String) = "mi" then 39632/10 else 63781/10) = .num (50 / (63781/10))
    rw [show jsNumber "50" = .num 50 from rfl]
    show (JsNum.num (min 50 50)).divC
      (if ("km" : String) = "mi" then 39632/10 else 63781/10) = .num (50 / (63781/10))
    rw [min_self]
    rfl
  refine ⟨hmax, heff, ?_, ?_⟩
  · intro db
    unfold nearbyResults
    rw [heff, heff50]
  · intro la ln r hla hln hr
    unfold geoSearchFilter
    simp [jsTruthy, hla, hln, hr]

/-- C3, witness for the amended theorem at a requested radius of 200 km. -/
theorem claim3_witness :
    nearbyMaxDistance (some "200") = .num 50 ∧
    nearbyResults (some "200") "km" [⟨1, "active", 100 / (63781/10)⟩] =
      nearbyResults (some "50") "km" [⟨1, "active", 100 / (63781/10)⟩] ∧
    geoSearchFilter { lat := some "10", lng := some "20", radius := some "200" } =
      some { lng := jsParseFloat "20", lat := jsParseFloat "10",
             radiusRadians := (jsParseFloat "200").divC (63781/10) } := by
  have h := claim3_amended 200 (by norm_num) "200" rfl
  exact ⟨h.1, h.2.2.1 [⟨1, "active", 100 / (63781/10)⟩],
    h.2.2.2 "10" "20" "200" (by decide) (by decide) (by decide)⟩

/-! ## Claim C1 -/

/-- Membership in an insertion step of the createdAt-descending sort. -/
theorem mem_insertByCreatedDesc (x a : PublicListing) (l : List PublicListing) :
    a ∈ insertByCreatedDesc x l ↔ a = x ∨ a ∈ l := by
  induction l with
  | nil => simp [insertByCreatedDesc]
  | cons y ys ih =>
    unfold insertByCreatedDesc
    split
    · simp [List.mem_cons]
    · rw [List.mem_cons, ih, List.mem_cons]
      tauto

/-- Sorting by createdAt descending preserves membership. -/
theorem mem_sortByCreatedDesc (a : PublicListing) (l : List PublicListing) :
    a ∈ sortByCreatedDesc l ↔ a ∈ l := by
  induction l with
  | nil => simp [sortByCreatedDesc]
  | cons x xs ih =>
    rw [show sortByCreatedDesc (x :: xs) = insertByCreatedDesc x (sortByCreatedDesc xs)
      from rfl]
    rw [mem_insertByCreatedDesc, ih, List.mem_cons]

/-- Everything matched by the fallback predicate is an active listing. -/
theorem fallbackPred_status (qs : QueryString) (l : PublicListing)
    (h : fallbackPred qs l = true) : l.status = "active" := by
  unfold fallbackPred at h
  simp only [Bool.and_eq_true, decide_eq_true_eq] at h
  exact h.1.1.1.1.1.1

/-- C1, counterexample.  The claim says every public listing-search request
survives a plan-execution failure with HTTP success and never a 5xx.  The
public advanced-search endpoint (`GET /api/properties/search/`, handler
`advancedSearchProperties`) has no fallback: its catch block answers HTTP 500
with `success: false` when plan execution throws. -/
theorem claim1_counterexample :
    (advancedSearchProperties (.error ())).httpStatus = 500 ∧
    (advancedSearchProperties (.error ())).success = false :=
  ⟨rfl, rfl⟩

/-- C1, amended: the fallback guarantee holds for the public property-listing
endpoint (`listPublicProperties`) only: when plan execution throws it still
answers HTTP 200 with a (possibly empty) item list taken from the minimal
fallback query — active status plus city/area substring, property-type and
bedroom equality and price bounds from the raw parameters — sorted newest
first with the requested-or-default pagination; every returned item satisfies
that fallback predicate and is active.  The public advanced-search endpoint
(`advancedSearchProperties`) instead returns HTTP 500 on failure. -/
theorem claim1_amended (qs : QueryString) (db : List PublicListing) :
    (listPublicProperties (.error ()) qs db).httpStatus = 200 ∧
    (listPublicProperties (.error ()) qs db).success = true ∧
    (listPublicProperties (.error ()) qs db).items =
      ((sortByCreatedDesc (db.filter (fallbackPred qs))).drop
          (ratToNat (((jsParseIntOpt qs.page).orDefault 1 - 1) *
            ((jsParseIntOpt qs.limit).orDefault 20)))).take
        (ratToNat ((jsParseIntOpt qs.limit).orDefault 20)) ∧
    (∀ l ∈ (listPublicProperties (.error ()) qs db).items,
      fallbackPred qs l = true ∧ l.status = "active") ∧
    (listPublicProperties (.error ()) qs db).total =
      (db.filter (fallbackPred qs)).length ∧
    (advancedSearchProperties (.error ())).httpStatus = 500 := by
  refine ⟨rfl, rfl, rfl, ?_, rfl, rfl⟩
  intro l hl
  have hl1 : l ∈ ((sortByCreatedDesc (db.filter (fallbackPred qs))).drop
      (ratToNat (((jsParseIntOpt qs.page).orDefault 1 - 1) *
        ((jsParseIntOpt qs.limit).orDefault 20)))).take
      (ratToNat ((jsParseIntOpt qs.limit).orDefault 20)) := hl
  have hl2 := List.drop_subset _ _ (List.take_subset _ _ hl1)
  have hl3 := (mem_sortByCreatedDesc l _).mp hl2
  have hl4 := List.mem_filter.mp hl3
  exact ⟨hl4.2, fallbackPred_status qs l hl4.2⟩

/-- C1, witness for the amended theorem: a single active listing and the
empty parameter map. -/
theorem claim1_witness :
    (listPublicProperties (.error ()) ({} : QueryString)
        [⟨1, "active", "Kolkata", "Central", "apartment", 2, 100, 5⟩]).httpStatus
      = 200 ∧
    fallbackPred ({} : QueryString)
      ⟨1, "active", "Kolkata", "Central", "apartment", 2, 100, 5⟩ = true := by
  have h := claim1_amended ({} : QueryString)
    [⟨1, "active", "Kolkata", "Central", "apartment", 2, 100, 5⟩]
  have hmem : (⟨1, "active", "Kolkata", "Central", "apartment", 2, 100, 5⟩ :
      PublicListing) ∈ (listPublicProperties (.error ()) ({} : QueryString)
        [⟨1, "active", "Kolkata", "Central", "apartment", 2, 100, 5⟩]).items := by
    rw [h.2.2.1]
    have hfil : ([⟨1, "active", "Kolkata", "Central", "apartment", 2, 100, 5⟩] :
        List PublicListing).filter (fallbackPred ({} : QueryString)) =
        [⟨1, "active", "Kolkata", "Central", "apartment", 2, 100, 5⟩] := by decide
    rw [hfil]
    have hskip : ratToNat (((jsParseIntOpt ({} : QueryString).page).orDefault 1 - 1) *
        ((jsParseIntOpt ({} : QueryString).limit).orDefault 20)) = 0 := by
      have hz : (((jsParseIntOpt ({} : QueryString).page).orDefault 1 : ℚ) - 1) *
          ((jsParseIntOpt ({} : QueryString).limit).orDefault 20) = 0 := by
        norm_num [jsParseIntOpt, JsNum.orDefault]
      rw [hz]
      rfl
    have hlim : ratToNat ((jsParseIntOpt ({} : QueryString).limit).orDefault 20) = 20 :=
      rfl
    rw [hskip, hlim]
    decide
  exact ⟨h.1, (h.2.2.2.1 _ hmem).1⟩

end HousingYard
